import Mathlib

/-!
Shallow embedding of the moderation / webhook core of the admin dashboard
server.  Each definition mirrors a function of the TypeScript source
(`services/moderation.ts`, `services/webhook.ts`, `utils/index.ts`,
`middleware/errorHandler.ts`, the upload routes and the user-app
integration routes).  Stateful code is embedded as explicit state passing
over a `Store` value; fallible handlers return `Except AppError _`; clock
reads (`new Date()`) and externally generated fresh identifiers are passed
in as explicit arguments.
-/

namespace AdminDashboard

/-- Submission status strings (`types/index.ts`, `SubmissionStatus`). -/
inductive SubmissionStatus
  | PENDING
  | UNDER_REVIEW
  | APPROVED
  | REJECTED
  | REWARD_PENDING
  | REWARD_PAID
  | EXPIRED
  | FLAGGED
deriving DecidableEq, Repr

/-- The string stored in the database for each status value. -/
def SubmissionStatus.toStr : SubmissionStatus → String
  | .PENDING => "PENDING"
  | .UNDER_REVIEW => "UNDER_REVIEW"
  | .APPROVED => "APPROVED"
  | .REJECTED => "REJECTED"
  | .REWARD_PENDING => "REWARD_PENDING"
  | .REWARD_PAID => "REWARD_PAID"
  | .EXPIRED => "EXPIRED"
  | .FLAGGED => "FLAGGED"

/-- Moderation action kinds (`types/index.ts`, `ActionType`). -/
inductive ActionType
  | VIEW
  | APPROVE
  | REJECT
  | FLAG
deriving DecidableEq, Repr

/-- Webhook event status (`WebhookEvent.status`). -/
inductive WebhookStatus
  | PENDING
  | DELIVERED
  | RETRYING
  | FAILED
deriving DecidableEq, Repr

/-- Caller-facing application error (`middleware/errorHandler.ts`,
class `AppError`: HTTP status code, machine-readable code, message). -/
structure AppError where
  statusCode : Nat
  code : String
  message : String
deriving DecidableEq, Repr

namespace Errors

/-- `Errors.notFound` of `errorHandler.ts`. -/
def notFound (resource : String) : AppError :=
  ⟨404, "NOT_FOUND", resource ++ " not found"⟩

/-- `Errors.badRequest` of `errorHandler.ts` (structured details omitted). -/
def badRequest (message : String) : AppError :=
  ⟨400, "BAD_REQUEST", message⟩

/-- `Errors.unauthorized` of `errorHandler.ts`. -/
def unauthorized (message : String) : AppError :=
  ⟨401, "UNAUTHORIZED", message⟩

/-- `Errors.forbidden` of `errorHandler.ts`. -/
def forbidden (message : String) : AppError :=
  ⟨403, "FORBIDDEN", message⟩

/-- `Errors.conflict` of `errorHandler.ts`. -/
def conflict (message : String) : AppError :=
  ⟨409, "CONFLICT", message⟩

/-- `Errors.tooManyRequests` of `errorHandler.ts`. -/
def tooManyRequests (message : String) : AppError :=
  ⟨429, "TOO_MANY_REQUESTS", message⟩

/-- `Errors.internal` of `errorHandler.ts`; also the shape produced by the
global error handler for unexpected exceptions (HTTP 500). -/
def internal (message : String) : AppError :=
  ⟨500, "INTERNAL_ERROR", message⟩

/-- The response the global error handler produces for a Zod schema
validation failure (`errorHandler.ts`, `ZodError` branch: HTTP 400,
code VALIDATION_ERROR; the per-field issue list is omitted). -/
def validationError : AppError :=
  ⟨400, "VALIDATION_ERROR", "Validation failed"⟩

end Errors

/-- A task row (`Task`), restricted to the fields the embedded code reads. -/
structure Task where
  id : String
  name : String
  category : String
  rewardAmount : Nat
  rewardToken : String
  isActive : Bool
deriving DecidableEq, Repr

/-- A task-submission row (`TaskSubmission`). -/
structure Submission where
  id : Nat
  userId : Nat
  taskId : String
  status : SubmissionStatus
  submittedAt : Nat
  proofFileKey : Option String
  proofFileType : Option String
  proofUploadedAt : Option Nat
  userNote : Option String
  submissionHash : String
  reviewedById : Option Nat
  reviewedAt : Option Nat
  rejectionReason : Option String
  moderatorNote : Option String
  rewardTxHash : Option String
  rewardPaidAt : Option Nat
deriving DecidableEq, Repr

/-- A platform-user row (`PlatformUser`) with its aggregate counters. -/
structure PlatformUser where
  id : Nat
  walletAddress : String
  totalApproved : Int
  totalRejected : Int
  totalPending : Int
  isSuspended : Bool
  suspendReason : Option String
deriving DecidableEq, Repr

/-- An immutable audit row (`ModerationAction`). -/
structure ModerationAction where
  submissionId : Nat
  adminId : Nat
  action : ActionType
  previousStatus : SubmissionStatus
  newStatus : SubmissionStatus
  reason : Option String
  internalNote : Option String
  createdAt : Nat
deriving DecidableEq, Repr

/-- The webhook envelope `{eventType, timestamp, data}` built by
`emitWebhook`.  The source serializes it with `JSON.stringify` (an external
encoder) and stores the resulting bytes verbatim; the embedding stores the
structured value verbatim, with `data` as the list of key/value fields. -/
structure WebhookPayload where
  eventType : String
  timestamp : Nat
  data : List (String × String)
deriving DecidableEq, Repr

/-- A webhook outbox row (`WebhookEvent`). -/
structure WebhookEvent where
  id : Nat
  eventType : String
  payload : WebhookPayload
  targetUrl : String
  status : WebhookStatus
  attempts : Nat
  lastAttemptAt : Option Nat
  lastError : Option String
  deliveredAt : Option Nat
deriving DecidableEq, Repr

/-- The environment configuration fields the embedded handlers read
(`config/index.ts`). -/
structure Config where
  webhookSecret : String
  userAppWebhookUrl : Option String
  allowedMimeTypes : List String
  maxFileSizeMb : Nat
deriving DecidableEq, Repr

/-- The durable relational store: all tables the embedded handlers touch.
Rows are append-only except through the explicit per-id updates below. -/
structure Store where
  tasks : List Task
  users : List PlatformUser
  submissions : List Submission
  actions : List ModerationAction
  webhookEvents : List WebhookEvent
deriving DecidableEq, Repr

/-- Prisma `update where id` on the submissions table: rewrite the row(s)
whose id matches. -/
def updateSubmissionById (subs : List Submission) (sid : Nat)
    (f : Submission → Submission) : List Submission :=
  subs.map (fun x => if x.id == sid then f x else x)

/-- Prisma `update where id` on the users table. -/
def updateUserById (users : List PlatformUser) (uid : Nat)
    (f : PlatformUser → PlatformUser) : List PlatformUser :=
  users.map (fun u => if u.id == uid then f u else u)

/-- Prisma `update where id` on the webhook-events table. -/
def updateEventById (events : List WebhookEvent) (eid : Nat)
    (f : WebhookEvent → WebhookEvent) : List WebhookEvent :=
  events.map (fun e => if e.id == eid then f e else e)

-- =============================================================================
-- services/webhook.ts
-- =============================================================================

/-- `MAX_RETRIES` of `services/webhook.ts`. -/
def MAX_RETRIES : Nat := 3

/-- `RETRY_DELAYS` of `services/webhook.ts` (milliseconds). -/
def RETRY_DELAYS : List Nat := [1000, 5000, 30000]

/-- Outcome of the outbound HTTP POST in `deliverWebhook`: a 2xx response,
or anything else (non-2xx status or transport failure, both of which reach
the same `catch` block). -/
inductive HttpOutcome
  | success
  | failure (message : String)
deriving DecidableEq, Repr

/-- `emitWebhook`: persist a new WebhookEvent row with status PENDING and
the envelope stored verbatim, and return its id.  The immediate
fire-and-forget delivery attempt is asynchronous and is modeled by a
separate `deliverWebhook` invocation with an injected HTTP outcome. -/
def emitWebhook (cfg : Config) (s : Store) (eventType : String)
    (data : List (String × String)) (now : Nat) : Store × Nat :=
  let event : WebhookEvent :=
    { id := s.webhookEvents.length
      eventType := eventType
      payload := ⟨eventType, now, data⟩
      targetUrl := cfg.userAppWebhookUrl.getD ""
      status := .PENDING
      attempts := 0
      lastAttemptAt := none
      lastError := none
      deliveredAt := none }
  ({ s with webhookEvents := s.webhookEvents ++ [event] }, event.id)

/-- One delivery attempt on an event that passed the missing/DELIVERED
guard of `deliverWebhook`: the update applied to the row, whether a retry
was scheduled via `setTimeout`, and the scheduled delay
(`RETRY_DELAYS[event.attempts] || RETRY_DELAYS[2]`). -/
def deliverEventStep (event : WebhookEvent) (outcome : HttpOutcome)
    (now : Nat) : WebhookEvent × Bool × Option Nat :=
  match outcome with
  | .success =>
    ({ event with
        status := .DELIVERED
        deliveredAt := some now
        attempts := event.attempts + 1
        lastAttemptAt := some now }, false, none)
  | .failure msg =>
    let e' : WebhookEvent :=
      { event with
          status := if event.attempts ≥ MAX_RETRIES - 1 then .FAILED else .RETRYING
          attempts := event.attempts + 1
          lastAttemptAt := some now
          lastError := some msg }
    if event.attempts < MAX_RETRIES - 1 then
      (e', true, some ((RETRY_DELAYS.get? event.attempts).getD 30000))
    else
      (e', false, none)

/-- `deliverWebhook(eventId)`: no-op when the event is missing or already
DELIVERED (no HTTP request is issued); otherwise one HTTP attempt whose
outcome is injected.  Returns the store, whether an HTTP request was made,
and whether a later retry was scheduled. -/
def deliverWebhook (s : Store) (eventId : Nat) (outcome : HttpOutcome)
    (now : Nat) : Store × Bool × Bool :=
  match s.webhookEvents.find? (fun e => e.id == eventId) with
  | none => (s, false, false)
  | some event =>
    if event.status == .DELIVERED then (s, false, false)
    else
      let r := deliverEventStep event outcome now
      ({ s with webhookEvents := updateEventById s.webhookEvents eventId (fun _ => r.1) },
        true, r.2.1)

/-- The selection made by `retryFailedWebhooks` (the bulk retry sweep):
events with status RETRYING and attempts below the maximum, capped at 100. -/
def retrySweepSelection (s : Store) : List WebhookEvent :=
  (s.webhookEvents.filter (fun e => e.status == .RETRYING && e.attempts < MAX_RETRIES)).take 100

-- =============================================================================
-- utils/index.ts — HMAC signing and verification
-- =============================================================================

/-- `crypto.timingSafeEqual` over the UTF-8 buffers of two byte strings,
modeled on byte lists: it throws (`Except.error`) when the buffer lengths
differ, and otherwise reports byte-for-byte equality. -/
def timingSafeEqual (a b : List Nat) : Except String Bool :=
  if a.length ≠ b.length then
    .error "Input buffers must have the same byte length"
  else
    .ok (a == b)

/-- `createHmacSignature(payload, secret)`: delegates to the external
`crypto.createHmac('sha256', …)` primitive, taken here as an explicit
function argument `hmac` from payload bytes and secret bytes to the
hex-encoded digest bytes (64 bytes for HMAC-SHA256). -/
def createHmacSignature (hmac : List Nat → List Nat → List Nat)
    (payload secret : List Nat) : List Nat :=
  hmac payload secret

/-- `verifyHmacSignature(payload, signature, secret)`: recompute the HMAC
of the payload and compare with `crypto.timingSafeEqual`. -/
def verifyHmacSignature (hmac : List Nat → List Nat → List Nat)
    (payload signature secret : List Nat) : Except String Bool :=
  timingSafeEqual signature (createHmacSignature hmac payload secret)

/-- JavaScript `String.prototype.trim()`: strip leading and trailing
whitespace (modeled over the character list, so that it evaluates by
kernel reduction). -/
def trimStr (s : String) : String :=
  ⟨((s.data.dropWhile Char.isWhitespace).reverse.dropWhile Char.isWhitespace).reverse⟩

/-- `createSubmissionHash(walletAddress, taskId, timestamp)` builds
`wallet:task:timestamp` and applies the external sha256 primitive; the
digest is modeled by its (injective) preimage string. -/
def createSubmissionHash (walletAddress taskId : String) (now : Nat) : String :=
  walletAddress ++ ":" ++ taskId ++ ":" ++ toString now

-- =============================================================================
-- services/moderation.ts
-- =============================================================================

/-- The allowed-from set shared by approve and reject:
`['PENDING', 'UNDER_REVIEW', 'FLAGGED'].includes(status)`. -/
def reviewableStatus (st : SubmissionStatus) : Bool :=
  st == .PENDING || st == .UNDER_REVIEW || st == .FLAGGED

/-- `approveSubmission(submissionId, adminId, moderatorNote?, txHash?)`.
The initial `findUnique` includes the required `user` and `task`
relations, so a broken relation makes the query itself throw (surfaced by
the global handler as a 500) before the status check. -/
def approveSubmission (cfg : Config) (s : Store) (submissionId adminId : Nat)
    (moderatorNote txHash : Option String) (now : Nat) : Except AppError Store :=
  match s.submissions.find? (fun x => x.id == submissionId) with
  | none => .error (Errors.notFound "Submission")
  | some sub =>
    match s.users.find? (fun u => u.id == sub.userId),
          s.tasks.find? (fun t => t.id == sub.taskId) with
    | some user, some task =>
      if !reviewableStatus sub.status then
        .error (Errors.badRequest
          ("Cannot approve submission with status: " ++ sub.status.toStr))
      else
        let previousStatus := sub.status
        let submissions' := updateSubmissionById s.submissions submissionId (fun x =>
          { x with
              status := .APPROVED
              reviewedById := some adminId
              reviewedAt := some now
              moderatorNote := moderatorNote
              rewardTxHash := txHash })
        let action : ModerationAction :=
          { submissionId := submissionId
            adminId := adminId
            action := .APPROVE
            previousStatus := previousStatus
            newStatus := .APPROVED
            reason := none
            internalNote := moderatorNote
            createdAt := now }
        let users' := updateUserById s.users sub.userId (fun u =>
          { u with totalApproved := u.totalApproved + 1, totalPending := u.totalPending - 1 })
        let s' : Store :=
          { s with submissions := submissions', actions := s.actions ++ [action], users := users' }
        .ok (emitWebhook cfg s' "submission.approved"
          [("submissionId", toString sub.id),
           ("userId", toString sub.userId),
           ("walletAddress", user.walletAddress),
           ("taskId", sub.taskId),
           ("taskName", task.name),
           ("status", "APPROVED"),
           ("rewardAmount", toString task.rewardAmount),
           ("rewardToken", task.rewardToken),
           ("txHash", (txHash.getD ""))] now).1
    | _, _ => .error (Errors.internal "Inconsistent query result")

/-- `rejectSubmission(submissionId, adminId, reason, moderatorNote?)`.
The empty/whitespace reason guard runs before any query; the `findUnique`
includes the required `user` relation. -/
def rejectSubmission (cfg : Config) (s : Store) (submissionId adminId : Nat)
    (reason : String) (moderatorNote : Option String) (now : Nat) : Except AppError Store :=
  if (trimStr reason).length == 0 then
    .error (Errors.badRequest "Rejection reason is required")
  else
    match s.submissions.find? (fun x => x.id == submissionId) with
    | none => .error (Errors.notFound "Submission")
    | some sub =>
      match s.users.find? (fun u => u.id == sub.userId) with
      | none => .error (Errors.internal "Inconsistent query result")
      | some user =>
        if !reviewableStatus sub.status then
          .error (Errors.badRequest
            ("Cannot reject submission with status: " ++ sub.status.toStr))
        else
          let previousStatus := sub.status
          let submissions' := updateSubmissionById s.submissions submissionId (fun x =>
            { x with
                status := .REJECTED
                reviewedById := some adminId
                reviewedAt := some now
                rejectionReason := some reason
                moderatorNote := moderatorNote })
          let action : ModerationAction :=
            { submissionId := submissionId
              adminId := adminId
              action := .REJECT
              previousStatus := previousStatus
              newStatus := .REJECTED
              reason := some reason
              internalNote := moderatorNote
              createdAt := now }
          let users' := updateUserById s.users sub.userId (fun u =>
            { u with totalRejected := u.totalRejected + 1, totalPending := u.totalPending - 1 })
          let s' : Store :=
            { s with submissions := submissions', actions := s.actions ++ [action], users := users' }
          .ok (emitWebhook cfg s' "submission.rejected"
            [("submissionId", toString sub.id),
             ("userId", toString sub.userId),
             ("walletAddress", user.walletAddress),
             ("taskId", sub.taskId),
             ("status", "REJECTED"),
             ("reason", reason)] now).1

/-- `flagSubmission(submissionId, adminId, reason)`: status to FLAGGED plus
one audit row; no counter update and no webhook. -/
def flagSubmission (s : Store) (submissionId adminId : Nat) (reason : String)
    (now : Nat) : Except AppError Store :=
  match s.submissions.find? (fun x => x.id == submissionId) with
  | none => .error (Errors.notFound "Submission")
  | some sub =>
    if sub.status != .PENDING && sub.status != .UNDER_REVIEW then
      .error (Errors.badRequest "Can only flag pending or under review submissions")
    else
      .ok { s with
              submissions := updateSubmissionById s.submissions submissionId
                (fun x => { x with status := .FLAGGED })
              actions := s.actions ++
                [{ submissionId := submissionId
                   adminId := adminId
                   action := .FLAG
                   previousStatus := sub.status
                   newStatus := .FLAGGED
                   reason := some reason
                   internalNote := none
                   createdAt := now }] }

/-- `getSubmissionDetail(submissionId, adminId)`: a read that appends one
VIEW audit row (previousStatus == newStatus == the current status) and
returns the submission unchanged. -/
def getSubmissionDetail (s : Store) (submissionId adminId : Nat)
    (now : Nat) : Except AppError (Store × Submission) :=
  match s.submissions.find? (fun x => x.id == submissionId) with
  | none => .error (Errors.notFound "Submission")
  | some sub =>
    .ok ({ s with
            actions := s.actions ++
              [{ submissionId := submissionId
                 adminId := adminId
                 action := .VIEW
                 previousStatus := sub.status
                 newStatus := sub.status
                 reason := none
                 internalNote := none
                 createdAt := now }] }, sub)

-- =============================================================================
-- routes/upload.ts — submission creation
-- =============================================================================

/-- JavaScript `String.prototype.split(sep)` over a character list
(structural recursion, so that it evaluates by kernel reduction). -/
def splitOnChar (sep : Char) : List Char → List (List Char)
  | [] => [[]]
  | c :: t =>
    match splitOnChar sep t with
    | [] => [[]]
    | h :: r => if c == sep then [] :: h :: r else (c :: h) :: r

/-- `uploadKey.split('.').pop() || ''` of the confirm handler: the last
dot-separated segment of the upload key. -/
def extensionOf (key : String) : String :=
  ⟨(splitOnChar '.' key.data).getLastD []⟩

/-- `mimeTypes[extension] || 'application/octet-stream'` of the confirm
handler. -/
def mimeForExtension : String → String
  | "jpg" => "image/jpeg"
  | "jpeg" => "image/jpeg"
  | "png" => "image/png"
  | "webp" => "image/webp"
  | "mp4" => "video/mp4"
  | "webm" => "video/webm"
  | _ => "application/octet-stream"

/-- A fresh platform-user row as created by `prisma.platformUser.create`
with only `walletAddress` supplied (counters default to 0). -/
def newPlatformUser (uid : Nat) (walletAddress : String) : PlatformUser :=
  { id := uid
    walletAddress := walletAddress
    totalApproved := 0
    totalRejected := 0
    totalPending := 0
    isSuspended := false
    suspendReason := none }

/-- `POST /upload/request` after signature verification and schema parsing:
content-type and size validation, task check, find-or-create user,
suspension check, then the duplicate-pending guard.  The handler runs no
transaction, so a user row created before a later error stays persisted;
hence the result pairs the (possibly mutated) store with the outcome. -/
def requestUpload (cfg : Config) (s : Store)
    (walletAddress taskId _filename contentType : String) (fileSize : Nat)
    (newUserId : Nat) : Store × Except AppError Unit :=
  if !cfg.allowedMimeTypes.contains contentType then
    (s, .error (Errors.badRequest
      ("Invalid file type. Allowed: " ++ String.intercalate ", " cfg.allowedMimeTypes)))
  else if fileSize > cfg.maxFileSizeMb * 1024 * 1024 then
    (s, .error (Errors.badRequest
      ("File too large. Maximum: " ++ toString cfg.maxFileSizeMb ++ "MB")))
  else
    match s.tasks.find? (fun t => t.id == taskId) with
    | none => (s, .error (Errors.notFound "Task"))
    | some task =>
      if !task.isActive then (s, .error (Errors.notFound "Task"))
      else
        let found := s.users.find? (fun u => u.walletAddress == walletAddress)
        let s1 : Store :=
          match found with
          | some _ => s
          | none => { s with users := s.users ++ [newPlatformUser newUserId walletAddress] }
        let user : PlatformUser := found.getD (newPlatformUser newUserId walletAddress)
        if user.isSuspended then (s1, .error (Errors.forbidden "Account is suspended"))
        else if (s1.submissions.find? (fun x =>
            x.userId == user.id && x.taskId == taskId &&
            (x.status == .PENDING || x.status == .UNDER_REVIEW))).isSome then
          (s1, .error (Errors.conflict "You already have a pending submission for this task"))
        else
          (s1, .ok ())

/-- The PENDING submission row `prisma.taskSubmission.create` persists in
the confirm handler. -/
def newSubmissionRow (walletAddress taskId uploadKey : String)
    (userNote : Option String) (uid newSubmissionId now : Nat) : Submission :=
  { id := newSubmissionId
    userId := uid
    taskId := taskId
    status := .PENDING
    submittedAt := now
    proofFileKey := some uploadKey
    proofFileType := some (mimeForExtension (extensionOf uploadKey))
    proofUploadedAt := some now
    userNote := userNote
    submissionHash := createSubmissionHash walletAddress taskId now
    reviewedById := none
    reviewedAt := none
    rejectionReason := none
    moderatorNote := none
    rewardTxHash := none
    rewardPaidAt := none }

/-- `POST /upload/confirm` after signature verification and schema parsing:
user and task checks, then one transaction that creates the PENDING
submission row and increments the user's `totalPending`.  The handler
performs no duplicate-pending lookup. -/
def confirmUpload (s : Store) (walletAddress taskId uploadKey : String)
    (userNote : Option String) (newSubmissionId : Nat) (now : Nat) :
    Except AppError (Store × Submission) :=
  match s.users.find? (fun u => u.walletAddress == walletAddress) with
  | none => .error (Errors.notFound "User")
  | some user =>
    if user.isSuspended then .error (Errors.forbidden "Account is suspended")
    else
      match s.tasks.find? (fun t => t.id == taskId) with
      | none => .error (Errors.notFound "Task")
      | some task =>
        if !task.isActive then .error (Errors.notFound "Task")
        else
          let sub := newSubmissionRow walletAddress taskId uploadKey userNote
            user.id newSubmissionId now
          let users' := updateUserById s.users user.id (fun u =>
            { u with totalPending := u.totalPending + 1 })
          .ok ({ s with submissions := s.submissions ++ [sub], users := users' }, sub)

-- =============================================================================
-- routes/integration.ts — reward claiming and payment confirmation
-- =============================================================================

/-- `POST /integration/reward/claim` after signature verification and
schema parsing: `findFirst` matching id and owner wallet (with required
`task` and `user` relations included), APPROVED guard, then the status
update to REWARD_PENDING. -/
def claimReward (s : Store) (walletAddress : String) (submissionId : Nat) :
    Except AppError Store :=
  match s.submissions.find? (fun x => x.id == submissionId &&
      ((s.users.find? (fun u => u.id == x.userId)).map PlatformUser.walletAddress)
        == some walletAddress) with
  | none => .error (Errors.notFound "Submission")
  | some sub =>
    if (s.tasks.find? (fun t => t.id == sub.taskId)).isNone then
      .error (Errors.internal "Inconsistent query result")
    else if sub.status != .APPROVED then
      .error (Errors.badRequest
        ("Cannot claim reward for submission with status: " ++ sub.status.toStr))
    else
      let submissions' := updateSubmissionById s.submissions submissionId
        (fun x => { x with status := .REWARD_PENDING })
      .ok { s with submissions := submissions' }

/-- `POST /integration/reward/confirm`: the Zod schema requires a txHash of
at least 64 characters; then REWARD_PENDING guard, then the update setting
status REWARD_PAID, `rewardTxHash` and `rewardPaidAt`. -/
def confirmRewardRoute (s : Store) (submissionId : Nat) (txHash : String)
    (now : Nat) : Except AppError Store :=
  if txHash.length < 64 then .error Errors.validationError
  else
    match s.submissions.find? (fun x => x.id == submissionId) with
    | none => .error (Errors.notFound "Submission")
    | some sub =>
      if sub.status != .REWARD_PENDING then
        .error (Errors.badRequest "Submission is not pending reward")
      else
        let submissions' := updateSubmissionById s.submissions submissionId
          (fun x => { x with
              status := .REWARD_PAID
              rewardTxHash := some txHash
              rewardPaidAt := some now })
        .ok { s with submissions := submissions' }

-- =============================================================================
-- routes/submissions.ts — admin route wrappers (Zod schemas)
-- =============================================================================

/-- `POST /submissions/:id/reject`: `rejectSchema` requires a reason of at
least 10 characters (Zod `min(10)`); a schema failure is surfaced by the
global handler as a 400 VALIDATION_ERROR before the service runs. -/
def rejectRoute (cfg : Config) (s : Store) (submissionId adminId : Nat)
    (reason : String) (moderatorNote : Option String) (now : Nat) :
    Except AppError Store :=
  if reason.length < 10 then .error Errors.validationError
  else rejectSubmission cfg s submissionId adminId reason moderatorNote now

/-- `POST /submissions/:id/flag`: `flagSchema` requires a reason of at
least 5 characters. -/
def flagRoute (s : Store) (submissionId adminId : Nat) (reason : String)
    (now : Nat) : Except AppError Store :=
  if reason.length < 5 then .error Errors.validationError
  else flagSubmission s submissionId adminId reason now

-- =============================================================================
-- Derived predicates used by the statements
-- =============================================================================

/-- Occurrence of one character list inside another (structural recursion,
so that it evaluates by kernel reduction). -/
def containsChars : List Char → List Char → Bool
  | _, [] => true
  | [], _ :: _ => false
  | h :: t, n :: m => (List.isPrefixOf (n :: m) (h :: t)) || containsChars t (n :: m)

/-- Substring occurrence test, used to express that an error message names
a given status string. -/
def containsStr (hay needle : String) : Bool :=
  containsChars hay.data needle.data

/-- The set of statuses the code treats as pending-like for the
`totalPending` counter: the submission states it decrements the counter
from (approve/reject sources) together with the creation state. -/
def pendingLike (st : SubmissionStatus) : Bool :=
  st == .PENDING || st == .UNDER_REVIEW || st == .FLAGGED

/-- Number of a user's submission rows in a pending-like status. -/
def pendingCount (subs : List Submission) (uid : Nat) : Nat :=
  subs.countP (fun x => x.userId == uid && pendingLike x.status)

/-- Number of a user's submission rows with status PENDING or
UNDER_REVIEW — the set named by the specification. -/
def specPendingCount (subs : List Submission) (uid : Nat) : Nat :=
  subs.countP (fun x => x.userId == uid && (x.status == .PENDING || x.status == .UNDER_REVIEW))

/-- The counter invariant the code actually maintains: every user's
`totalPending` equals the number of their pending-like submissions. -/
def countersInvariant (s : Store) : Prop :=
  ∀ u ∈ s.users, u.totalPending = (pendingCount s.submissions u.id : Int)

/-- Boolean form of the specification's counter claim (`totalPending` =
number of submissions in PENDING or UNDER_REVIEW), for concrete checks. -/
def specCountersOk (s : Store) : Bool :=
  s.users.all (fun u => u.totalPending == (specPendingCount s.submissions u.id : Int))

/-- Number of submissions of one (user, task) pair in PENDING or
UNDER_REVIEW — the set the duplicate guard queries. -/
def pairPendingCount (subs : List Submission) (uid : Nat) (tid : String) : Nat :=
  subs.countP (fun x => x.userId == uid && x.taskId == tid &&
    (x.status == .PENDING || x.status == .UNDER_REVIEW))

-- =============================================================================
-- Concrete fixtures (used by witnesses and counterexamples)
-- =============================================================================

/-- An active task row. -/
def task0 : Task :=
  { id := "task-1", name := "Task One", category := "social",
    rewardAmount := 10, rewardToken := "USDC", isActive := true }

/-- A user with one pending submission. -/
def user0 : PlatformUser :=
  { id := 0, walletAddress := "W0000000000000000000000000000001",
    totalApproved := 0, totalRejected := 0, totalPending := 1,
    isSuspended := false, suspendReason := none }

/-- A PENDING submission of `user0` for `task0`. -/
def sub0 : Submission :=
  { id := 0, userId := 0, taskId := "task-1", status := .PENDING,
    submittedAt := 0, proofFileKey := some "proofs/k0.png",
    proofFileType := some "image/png", proofUploadedAt := some 0,
    userNote := none, submissionHash := "h0", reviewedById := none,
    reviewedAt := none, rejectionReason := none, moderatorNote := none,
    rewardTxHash := none, rewardPaidAt := none }

/-- Store holding `task0`, `user0` and the pending `sub0`. -/
def store0 : Store :=
  { tasks := [task0], users := [user0], submissions := [sub0],
    actions := [], webhookEvents := [] }

/-- The server configuration used for concrete runs. -/
def cfg0 : Config :=
  { webhookSecret := "secret", userAppWebhookUrl := some "http://app/webhook",
    allowedMimeTypes := ["image/png", "image/jpeg"], maxFileSizeMb := 10 }

/-- Store whose only submission is already APPROVED (counters moved on). -/
def storeApproved : Store :=
  { store0 with
      submissions := [{ sub0 with status := .APPROVED }]
      users := [{ user0 with totalPending := 0, totalApproved := 1 }] }

/-- The flagged-store result used by the C10 witness: `store0` after
flagging its single PENDING submission. -/
def flagStore0 : Store :=
  { store0 with
      submissions := [{ sub0 with status := .FLAGGED }]
      actions := [{ submissionId := 0, adminId := 1, action := .FLAG,
                    previousStatus := .PENDING, newStatus := .FLAGGED,
                    reason := some "spam content", internalNote := none, createdAt := 5 }] }

/-- A freshly emitted webhook event (status PENDING, attempts 0). -/
def ev0 : WebhookEvent :=
  { id := 0, eventType := "submission.approved",
    payload := ⟨"submission.approved", 0, []⟩, targetUrl := "http://app/webhook",
    status := .PENDING, attempts := 0, lastAttemptAt := none,
    lastError := none, deliveredAt := none }

/-- An already delivered webhook event. -/
def evDelivered : WebhookEvent :=
  { ev0 with id := 1, status := .DELIVERED, deliveredAt := some 1, attempts := 1 }

/-- Store holding only the delivered event. -/
def storeDelivered : Store :=
  { tasks := [], users := [], submissions := [], actions := [],
    webhookEvents := [evDelivered] }

/-- A concrete stand-in for the external digest primitive (two bytes),
used only to instantiate witnesses. -/
def hmacC (payload secret : List Nat) : List Nat :=
  [(payload.sum + secret.sum) % 256, 7]

/-- A 64-byte-digest stand-in for the external primitive, used only to
instantiate the C9 witness. -/
def hmac64 (payload secret : List Nat) : List Nat :=
  List.replicate 64 ((payload.sum + secret.sum) % 256)

/-- Store whose only submission already awaits payment (REWARD_PENDING). -/
def storeRewardPending : Store :=
  { store0 with
      submissions := [{ sub0 with status := .REWARD_PENDING }]
      users := [{ user0 with totalPending := 0, totalApproved := 1 }] }

/-- A 64-character transaction hash accepted by the confirm schema. -/
def txHash64 : String :=
  "abcdabcdabcdabcdabcdabcdabcdabcdabcdabcdabcdabcdabcdabcdabcdabcd"

/-- The row update the reward-confirm route applies on success. -/
def rewardPaidUpdate (tx : String) (now : Nat) (x : Submission) : Submission :=
  { x with status := .REWARD_PAID, rewardTxHash := some tx, rewardPaidAt := some now }

-- =============================================================================
-- Claim C4 — webhook retry bound and DELIVERED idempotence
-- =============================================================================

/-- Claim C4: an event that starts PENDING with zero attempts and receives
three consecutive failed delivery attempts moves RETRYING, RETRYING,
FAILED with the attempts counter ending at 3; a retry is scheduled after
the first and second failures but not after the third (and the FAILED row
is also outside the bulk retry sweep's selection filter), so no 4th
attempt is ever scheduled automatically.  Moreover `deliverWebhook` on an
event that is already DELIVERED issues no HTTP request and leaves the
store unchanged. -/
theorem c4_retry_bound_and_delivered_noop
    (e : WebhookEvent) (m1 m2 m3 : String) (t1 t2 t3 : Nat)
    (s : Store) (eventId : Nat) (o : HttpOutcome) (now : Nat) (ev : WebhookEvent)
    (_hp : e.status = .PENDING) (ha : e.attempts = 0)
    (hfind : s.webhookEvents.find? (fun x => x.id == eventId) = some ev)
    (hdel : ev.status = .DELIVERED) :
    (deliverEventStep e (.failure m1) t1).1.status = .RETRYING ∧
    (deliverEventStep e (.failure m1) t1).1.attempts = 1 ∧
    (deliverEventStep e (.failure m1) t1).2.1 = true ∧
    (deliverEventStep (deliverEventStep e (.failure m1) t1).1 (.failure m2) t2).1.status = .RETRYING ∧
    (deliverEventStep (deliverEventStep e (.failure m1) t1).1 (.failure m2) t2).1.attempts = 2 ∧
    (deliverEventStep (deliverEventStep e (.failure m1) t1).1 (.failure m2) t2).2.1 = true ∧
    (deliverEventStep (deliverEventStep (deliverEventStep e (.failure m1) t1).1 (.failure m2) t2).1 (.failure m3) t3).1.status = .FAILED ∧
    (deliverEventStep (deliverEventStep (deliverEventStep e (.failure m1) t1).1 (.failure m2) t2).1 (.failure m3) t3).1.attempts = 3 ∧
    (deliverEventStep (deliverEventStep (deliverEventStep e (.failure m1) t1).1 (.failure m2) t2).1 (.failure m3) t3).2.1 = false ∧
    (((deliverEventStep (deliverEventStep (deliverEventStep e (.failure m1) t1).1 (.failure m2) t2).1 (.failure m3) t3).1.status == WebhookStatus.RETRYING) &&
      decide ((deliverEventStep (deliverEventStep (deliverEventStep e (.failure m1) t1).1 (.failure m2) t2).1 (.failure m3) t3).1.attempts < MAX_RETRIES)) = false ∧
    deliverWebhook s eventId o now = (s, false, false) := by
  refine ⟨?_, ?_, ?_, ?_, ?_, ?_, ?_, ?_, ?_, ?_, ?_⟩ <;>
    simp [deliverEventStep, deliverWebhook, MAX_RETRIES, ha, hfind, hdel]

/-- Witness for C4 at the concrete event `ev0` and store `storeDelivered`. -/
theorem c4_witness :
    (deliverEventStep ev0 (.failure "HTTP 500") 1).1.status = .RETRYING ∧
    (deliverEventStep (deliverEventStep (deliverEventStep ev0 (.failure "HTTP 500") 1).1 (.failure "HTTP 502") 2).1 (.failure "timeout") 3).1.status = .FAILED ∧
    deliverWebhook storeDelivered 1 (.failure "HTTP 500") 4 = (storeDelivered, false, false) := by
  have h := c4_retry_bound_and_delivered_noop ev0 "HTTP 500" "HTTP 502" "timeout" 1 2 3
    storeDelivered 1 (.failure "HTTP 500") 4 evDelivered (by decide) (by decide)
    (by decide) (by decide)
  exact ⟨h.1, h.2.2.2.2.2.2.1, h.2.2.2.2.2.2.2.2.2.2⟩

-- =============================================================================
-- Claim C5 — HMAC sign/verify round trip and tamper detection
-- =============================================================================

/-- Claim C5: for every payload and secret, verifying the signature
produced by `createHmacSignature` succeeds; altering any byte of the
signature (the digest length is preserved) makes verification return
false; and altering the payload makes verification return false whenever
the recomputed digest differs from the stored one (the claim's own
proviso: "so the recomputed HMAC-SHA256 no longer matches the supplied
signature") and has the same digest length.  The external
`crypto.createHmac('sha256', …)` primitive is the explicit function
argument `hmac`. -/
theorem c5_hmac_sign_verify (hmac : List Nat → List Nat → List Nat)
    (payload secret : List Nat) :
    verifyHmacSignature hmac payload (createHmacSignature hmac payload secret) secret = .ok true ∧
    (∀ i : Nat, ∀ hi : i < (hmac payload secret).length, ∀ b : Nat,
      b ≠ (hmac payload secret).get ⟨i, hi⟩ →
      verifyHmacSignature hmac payload ((hmac payload secret).set i b) secret = .ok false) ∧
    (∀ payload' : List Nat,
      (hmac payload' secret).length = (hmac payload secret).length →
      hmac payload' secret ≠ hmac payload secret →
      verifyHmacSignature hmac payload' (hmac payload secret) secret = .ok false) := by
  refine ⟨?_, ?_, ?_⟩
  · simp [verifyHmacSignature, createHmacSignature, timingSafeEqual]
  · intro i hi b hb
    have hlen : ((hmac payload secret).set i b).length = (hmac payload secret).length :=
      List.length_set _ _ _
    have hne : (hmac payload secret).set i b ≠ hmac payload secret := by
      intro heq
      apply hb
      have h1 : ((hmac payload secret).set i b)[i]? = some b := by
        simp [List.getElem?_set, hi]
      rw [heq] at h1
      have h2 : (hmac payload secret)[i]? = some ((hmac payload secret).get ⟨i, hi⟩) := by
        simp [List.getElem?_eq_getElem hi]
      rw [h1] at h2
      exact Option.some.inj h2
    simp [verifyHmacSignature, createHmacSignature, timingSafeEqual, hlen,
      beq_eq_false_iff_ne.mpr hne]
  · intro payload' hlen hne
    have hne' : hmac payload secret ≠ hmac payload' secret := fun h => hne h.symm
    simp [verifyHmacSignature, createHmacSignature, timingSafeEqual, hlen,
      beq_eq_false_iff_ne.mpr hne']

/-- Witness for C5 at a concrete primitive, payload and secret. -/
theorem c5_witness :
    verifyHmacSignature hmacC [1, 2] (createHmacSignature hmacC [1, 2] [9]) [9] = .ok true ∧
    verifyHmacSignature hmacC [1, 2] ((hmacC [1, 2] [9]).set 0 99) [9] = .ok false ∧
    verifyHmacSignature hmacC [1, 2, 3] (hmacC [1, 2] [9]) [9] = .ok false := by
  obtain ⟨h1, h2, h3⟩ := c5_hmac_sign_verify hmacC [1, 2] [9]
  exact ⟨h1, h2 0 (by decide) 99 (by decide), h3 [1, 2, 3] (by decide) (by decide)⟩

-- =============================================================================
-- Claim C9 — verifyHmacSignature throws on length mismatch
-- =============================================================================

/-- Claim C9: when the digests produced by the primitive are 64 bytes
long (hex-encoded HMAC-SHA256), `verifyHmacSignature` raises the
`crypto.timingSafeEqual` length exception whenever the supplied signature
is not exactly 64 bytes, and returns a boolean (the byte-equality of the
signature with the recomputed digest) exactly when it is. -/
theorem c9_verify_length_exception (hmac : List Nat → List Nat → List Nat)
    (payload sig secret : List Nat)
    (h64 : (hmac payload secret).length = 64) :
    (sig.length ≠ 64 →
      verifyHmacSignature hmac payload sig secret =
        .error "Input buffers must have the same byte length") ∧
    (sig.length = 64 →
      verifyHmacSignature hmac payload sig secret = .ok (sig == hmac payload secret)) := by
  constructor
  · intro hne
    simp [verifyHmacSignature, createHmacSignature, timingSafeEqual, h64, hne]
  · intro heq
    simp [verifyHmacSignature, createHmacSignature, timingSafeEqual, h64, heq]

/-- Witness for C9: a 3-byte signature raises, a 64-byte one returns a
boolean. -/
theorem c9_witness :
    verifyHmacSignature hmac64 [1] [1, 2, 3] [5] =
      .error "Input buffers must have the same byte length" ∧
    verifyHmacSignature hmac64 [1] (List.replicate 64 0) [5] =
      .ok (List.replicate 64 0 == hmac64 [1] [5]) := by
  obtain ⟨h1, h2⟩ := c9_verify_length_exception hmac64 [1] [1, 2, 3] [5] (by decide)
  obtain ⟨h3, h4⟩ := c9_verify_length_exception hmac64 [1] (List.replicate 64 0) [5] (by decide)
  exact ⟨h1 (by decide), h4 (by decide)⟩

-- =============================================================================
-- Claim C7 — reward confirmation
-- =============================================================================

/-- Claim C7 counterexample: invoked on a PENDING submission (any status
other than REWARD_PENDING), the reward-confirm route fails with the 400
BAD_REQUEST condition "Submission is not pending reward", not with the
409 CONFLICT condition the claim names. -/
theorem c7_counterexample :
    (store0.submissions.find? (fun x => x.id == 0)).map Submission.status =
      some SubmissionStatus.PENDING ∧
    confirmRewardRoute store0 0 txHash64 9 =
      .error (Errors.badRequest "Submission is not pending reward") ∧
    (Errors.badRequest "Submission is not pending reward").statusCode = 400 ∧
    (Errors.badRequest "Submission is not pending reward").code ≠ "CONFLICT" := by
  refine ⟨rfl, rfl, rfl, by decide⟩

/-- Claim C7 (amended): with a schema-valid transaction hash (at least 64
characters), confirm payment succeeds exactly on a REWARD_PENDING
submission, setting status REWARD_PAID, `rewardTxHash` to the supplied
hash and `rewardPaidAt`; on a submission in any other status it fails
with the 400 BadRequest condition "Submission is not pending reward"
(code BAD_REQUEST, not Conflict/409) and, the handler returning an error
before any update, changes nothing. -/
theorem c7_confirm_reward (s : Store) (sid : Nat) (tx : String) (now : Nat)
    (sub : Submission)
    (hfind : s.submissions.find? (fun x => x.id == sid) = some sub)
    (hlen : 64 ≤ tx.length) :
    (sub.status = .REWARD_PENDING →
      confirmRewardRoute s sid tx now =
        .ok { s with submissions := updateSubmissionById s.submissions sid (rewardPaidUpdate tx now) }) ∧
    (sub.status ≠ .REWARD_PENDING →
      confirmRewardRoute s sid tx now =
        .error (Errors.badRequest "Submission is not pending reward") ∧
      (Errors.badRequest "Submission is not pending reward").statusCode = 400) := by
  have hl : ¬ tx.length < 64 := by omega
  constructor
  · intro hst
    simp [confirmRewardRoute, hl, hfind, hst]
    rfl
  · intro hst
    refine ⟨?_, rfl⟩
    simp [confirmRewardRoute, hl, hfind, hst]

/-- Witness for C7 at the concrete REWARD_PENDING store. -/
theorem c7_witness :
    confirmRewardRoute storeRewardPending 0 txHash64 9 =
      .ok { storeRewardPending with
              submissions := updateSubmissionById storeRewardPending.submissions 0 (rewardPaidUpdate txHash64 9) } := by
  exact (c7_confirm_reward storeRewardPending 0 txHash64 9
    { sub0 with status := .REWARD_PENDING } (by decide) (by decide)).1 rfl

-- =============================================================================
-- Claim C8 — reject with an invalid reason is refused before any mutation
-- =============================================================================

/-- Claim C8: a reject request whose reason is empty, whitespace-only, or
shorter than the 10-character schema minimum is refused with a
400-equivalent error.  A reason shorter than 10 characters fails the Zod
schema (VALIDATION_ERROR, 400) before the service is called; a longer but
whitespace-only reason fails the service's trimmed-emptiness guard
(BAD_REQUEST, 400) before any query or mutation.  The route returns the
error without producing a store, so no submission field changes and no
ModerationAction row is created. -/
theorem c8_reject_invalid_reason (cfg : Config) (s : Store)
    (sid aid : Nat) (reason : String) (mnote : Option String) (now : Nat)
    (hbad : trimStr reason = "" ∨ reason.length < 10) :
    ∃ e : AppError,
      rejectRoute cfg s sid aid reason mnote now = .error e ∧ e.statusCode = 400 := by
  by_cases hlen : reason.length < 10
  · exact ⟨Errors.validationError, by simp [rejectRoute, hlen], rfl⟩
  · have htrim : trimStr reason = "" := by
      rcases hbad with h | h
      · exact h
      · exact absurd h hlen
    refine ⟨Errors.badRequest "Rejection reason is required", ?_, rfl⟩
    simp [rejectRoute, hlen, rejectSubmission, htrim]

/-- Witness for C8: a 12-character whitespace-only reason (it passes the
schema length check and is caught by the service's trim guard). -/
theorem c8_witness :
    (trimStr "            " = "" ∨ ("            " : String).length < 10) ∧
    ∃ e : AppError,
      rejectRoute cfg0 store0 0 1 "            " none 7 = .error e ∧ e.statusCode = 400 :=
  ⟨Or.inl (by decide),
    c8_reject_invalid_reason cfg0 store0 0 1 "            " none 7 (Or.inl (by decide))⟩

-- =============================================================================
-- Claim C1 — invalid transitions are refused
-- =============================================================================

/-- Claim C1 counterexample: on an APPROVED submission, `flagSubmission`
does fail with a 400 condition, but its error message is the fixed string
"Can only flag pending or under review submissions", which does not name
the current status APPROVED — contradicting the claim that every such
failure names the current status. -/
theorem c1_counterexample :
    (storeApproved.submissions.find? (fun x => x.id == 0)).map Submission.status =
      some SubmissionStatus.APPROVED ∧
    flagSubmission storeApproved 0 1 "spam content" 5 =
      .error (Errors.badRequest "Can only flag pending or under review submissions") ∧
    containsStr "Can only flag pending or under review submissions"
      SubmissionStatus.APPROVED.toStr = false := by
  refine ⟨rfl, rfl, by decide⟩

/-- Claim C1 (amended): from APPROVED, REJECTED, REWARD_PENDING,
REWARD_PAID or EXPIRED, `approveSubmission` and `rejectSubmission` (with a
non-degenerate reason) fail with the 400 BadRequest condition whose
message names the current status, and `flagSubmission` fails with the
fixed 400 BadRequest message "Can only flag pending or under review
submissions" — which does not name the status — from every status other
than PENDING and UNDER_REVIEW, FLAGGED included.  Each operation returns
the error without producing a store, so the submission and all other
persisted state are unchanged. -/
theorem c1_invalid_transition_errors (cfg : Config) (s : Store) (sid aid : Nat)
    (note tx : Option String) (reason : String) (now : Nat)
    (sub : Submission) (user : PlatformUser) (task : Task)
    (hfs : s.submissions.find? (fun x => x.id == sid) = some sub)
    (hfu : s.users.find? (fun u => u.id == sub.userId) = some user)
    (hft : s.tasks.find? (fun t => t.id == sub.taskId) = some task)
    (hr : trimStr reason ≠ "")
    (hst : sub.status = .APPROVED ∨ sub.status = .REJECTED ∨
      sub.status = .REWARD_PENDING ∨ sub.status = .REWARD_PAID ∨ sub.status = .EXPIRED) :
    (approveSubmission cfg s sid aid note tx now =
        .error (Errors.badRequest ("Cannot approve submission with status: " ++ sub.status.toStr)) ∧
      containsStr ("Cannot approve submission with status: " ++ sub.status.toStr)
        sub.status.toStr = true) ∧
    (rejectSubmission cfg s sid aid reason note now =
        .error (Errors.badRequest ("Cannot reject submission with status: " ++ sub.status.toStr)) ∧
      containsStr ("Cannot reject submission with status: " ++ sub.status.toStr)
        sub.status.toStr = true) ∧
    (flagSubmission s sid aid reason now =
        .error (Errors.badRequest "Can only flag pending or under review submissions")) ∧
    (∀ s2 : Store, ∀ sid2 aid2 : Nat, ∀ r2 : String, ∀ n2 : Nat, ∀ sub2 : Submission,
      s2.submissions.find? (fun x => x.id == sid2) = some sub2 →
      sub2.status ≠ .PENDING → sub2.status ≠ .UNDER_REVIEW →
      flagSubmission s2 sid2 aid2 r2 n2 =
        .error (Errors.badRequest "Can only flag pending or under review submissions")) := by
  have hrl : ¬ ((trimStr reason).length == 0) = true := by
    simp only [beq_iff_eq]
    intro h0
    exact hr (by cases hx : trimStr reason with
      | mk data => cases data with
        | nil => rfl
        | cons c cs => rw [hx] at h0; simp [String.length] at h0)
  have hflag : ∀ s2 : Store, ∀ sid2 aid2 : Nat, ∀ r2 : String, ∀ n2 : Nat, ∀ sub2 : Submission,
      s2.submissions.find? (fun x => x.id == sid2) = some sub2 →
      sub2.status ≠ .PENDING → sub2.status ≠ .UNDER_REVIEW →
      flagSubmission s2 sid2 aid2 r2 n2 =
        .error (Errors.badRequest "Can only flag pending or under review submissions") := by
    intro s2 sid2 aid2 r2 n2 sub2 hf2 hnp hnu
    simp [flagSubmission, hf2, hnp, hnu]
  refine ⟨?_, ?_, ?_, hflag⟩
  · have hrev : reviewableStatus sub.status = false := by
      rcases hst with h | h | h | h | h <;> simp [reviewableStatus, h]
    constructor
    · simp [approveSubmission, hfs, hfu, hft, hrev]
    · rcases hst with h | h | h | h | h <;> rw [h] <;> decide
  · have hrev : reviewableStatus sub.status = false := by
      rcases hst with h | h | h | h | h <;> simp [reviewableStatus, h]
    constructor
    · simp [rejectSubmission, hrl, hfs, hfu, hrev]
    · rcases hst with h | h | h | h | h <;> rw [h] <;> decide
  · have hnp : sub.status ≠ .PENDING := by
      rcases hst with h | h | h | h | h <;> simp [h]
    have hnu : sub.status ≠ .UNDER_REVIEW := by
      rcases hst with h | h | h | h | h <;> simp [h]
    exact hflag s sid aid reason now sub hfs hnp hnu

/-- Witness for C1 at the concrete APPROVED store. -/
theorem c1_witness :
    approveSubmission cfg0 storeApproved 0 1 none none 5 =
      .error (Errors.badRequest
        ("Cannot approve submission with status: " ++ SubmissionStatus.APPROVED.toStr)) ∧
    rejectSubmission cfg0 storeApproved 0 1 "spam content" none 5 =
      .error (Errors.badRequest
        ("Cannot reject submission with status: " ++ SubmissionStatus.APPROVED.toStr)) := by
  have h := c1_invalid_transition_errors cfg0 storeApproved 0 1 none none "spam content" 5
    { sub0 with status := .APPROVED } { user0 with totalPending := 0, totalApproved := 1 }
    task0 rfl rfl rfl (by decide) (Or.inl rfl)
  exact ⟨h.1.1, h.2.1.1⟩

-- =============================================================================
-- Claim C6 — every moderation operation appends exactly one audit row
-- =============================================================================

/-- Claim C6: a successful approve, reject or flag appends exactly one new
ModerationAction row whose previousStatus is the submission's status
before the call and whose newStatus is APPROVED, REJECTED or FLAGGED
respectively; and `getSubmissionDetail` on an existing submission appends
exactly one ModerationAction with action VIEW and previousStatus equal to
newStatus, leaving the submissions table and the users (hence all
counters) unchanged. -/
theorem c6_one_audit_row_per_operation (cfg : Config) (s : Store) (sid aid : Nat)
    (note tx : Option String) (reason : String) (mnote : Option String) (now : Nat)
    (sub : Submission)
    (hfs : s.submissions.find? (fun x => x.id == sid) = some sub) :
    (∀ s' : Store, approveSubmission cfg s sid aid note tx now = .ok s' →
      s'.actions = s.actions ++
        [{ submissionId := sid, adminId := aid, action := .APPROVE,
           previousStatus := sub.status, newStatus := .APPROVED,
           reason := none, internalNote := note, createdAt := now }]) ∧
    (∀ s' : Store, rejectSubmission cfg s sid aid reason mnote now = .ok s' →
      s'.actions = s.actions ++
        [{ submissionId := sid, adminId := aid, action := .REJECT,
           previousStatus := sub.status, newStatus := .REJECTED,
           reason := some reason, internalNote := mnote, createdAt := now }]) ∧
    (∀ s' : Store, flagSubmission s sid aid reason now = .ok s' →
      s'.actions = s.actions ++
        [{ submissionId := sid, adminId := aid, action := .FLAG,
           previousStatus := sub.status, newStatus := .FLAGGED,
           reason := some reason, internalNote := none, createdAt := now }]) ∧
    (∀ p : Store × Submission, getSubmissionDetail s sid aid now = .ok p →
      p.1.actions = s.actions ++
        [{ submissionId := sid, adminId := aid, action := .VIEW,
           previousStatus := sub.status, newStatus := sub.status,
           reason := none, internalNote := none, createdAt := now }] ∧
      p.1.submissions = s.submissions ∧ p.1.users = s.users ∧ p.2 = sub) := by
  refine ⟨?_, ?_, ?_, ?_⟩
  · intro s' hok
    cases hfu : s.users.find? (fun u => u.id == sub.userId) with
    | none => simp [approveSubmission, hfs, hfu] at hok
    | some user =>
      cases hft : s.tasks.find? (fun t => t.id == sub.taskId) with
      | none => simp [approveSubmission, hfs, hfu, hft] at hok
      | some task =>
        by_cases hrev : reviewableStatus sub.status
        · simp [approveSubmission, hfs, hfu, hft, hrev, emitWebhook] at hok
          subst hok
          rfl
        · simp [approveSubmission, hfs, hfu, hft, hrev] at hok
  · intro s' hok
    by_cases hrl : ((trimStr reason).length == 0) = true
    · simp [rejectSubmission, hrl] at hok
    · cases hfu : s.users.find? (fun u => u.id == sub.userId) with
      | none => simp [rejectSubmission, hrl, hfs, hfu] at hok
      | some user =>
        by_cases hrev : reviewableStatus sub.status
        · simp [rejectSubmission, hrl, hfs, hfu, hrev, emitWebhook] at hok
          subst hok
          rfl
        · simp [rejectSubmission, hrl, hfs, hfu, hrev] at hok
  · intro s' hok
    by_cases hnp : sub.status = .PENDING
    · simp [flagSubmission, hfs, hnp] at hok
      subst hok
      rw [hnp]
    · by_cases hnu : sub.status = .UNDER_REVIEW
      · simp [flagSubmission, hfs, hnp, hnu] at hok
        subst hok
        rw [hnu]
      · simp [flagSubmission, hfs, hnp, hnu] at hok
  · intro p hok
    simp [getSubmissionDetail, hfs] at hok
    subst hok
    exact ⟨rfl, rfl, rfl, rfl⟩

/-- Witness for C6: viewing the pending submission of `store0` appends
exactly the VIEW row. -/
theorem c6_witness :
    getSubmissionDetail store0 0 1 5 =
      .ok ({ store0 with actions := store0.actions ++
        [{ submissionId := 0, adminId := 1, action := .VIEW,
           previousStatus := .PENDING, newStatus := .PENDING,
           reason := none, internalNote := none, createdAt := 5 }] }, sub0) ∧
    ({ store0 with actions := store0.actions ++
        [{ submissionId := 0, adminId := 1, action := .VIEW,
           previousStatus := .PENDING, newStatus := .PENDING,
           reason := none, internalNote := none, createdAt := 5 }] } : Store).users = store0.users := by
  have h := (c6_one_audit_row_per_operation cfg0 store0 0 1 none none "r" none 5 sub0 rfl).2.2.2
  exact ⟨rfl, (h _ rfl).2.2.1⟩

-- =============================================================================
-- Claim C10 — flag's frame: only the status field and one audit row
-- =============================================================================

/-- Claim C10: a successful `flagSubmission` leaves the users table (so
totalPending/totalApproved/totalRejected), the webhook-events table and
the tasks table untouched, appends exactly one FLAG ModerationAction, and
rewrites the submissions table only by setting the target row's status to
FLAGGED — every row's reviewedById, reviewedAt, rejectionReason (indeed
every field except the matched row's status) is unchanged, and no
submission.flagged webhook event is emitted. -/
theorem c10_flag_frame (s : Store) (sid aid : Nat) (reason : String) (now : Nat)
    (sub : Submission) (s' : Store)
    (hfs : s.submissions.find? (fun x => x.id == sid) = some sub)
    (hok : flagSubmission s sid aid reason now = .ok s') :
    s'.users = s.users ∧
    s'.webhookEvents = s.webhookEvents ∧
    s'.tasks = s.tasks ∧
    s'.actions = s.actions ++
      [{ submissionId := sid, adminId := aid, action := .FLAG,
         previousStatus := sub.status, newStatus := .FLAGGED,
         reason := some reason, internalNote := none, createdAt := now }] ∧
    s'.submissions = s.submissions.map
      (fun x => if x.id == sid then { x with status := SubmissionStatus.FLAGGED } else x) ∧
    s'.submissions.map Submission.reviewedById = s.submissions.map Submission.reviewedById ∧
    s'.submissions.map Submission.reviewedAt = s.submissions.map Submission.reviewedAt ∧
    s'.submissions.map Submission.rejectionReason = s.submissions.map Submission.rejectionReason := by
  have hsub : s' = { s with
      submissions := updateSubmissionById s.submissions sid
        (fun x => { x with status := .FLAGGED })
      actions := s.actions ++
        [{ submissionId := sid, adminId := aid, action := .FLAG,
           previousStatus := sub.status, newStatus := .FLAGGED,
           reason := some reason, internalNote := none, createdAt := now }] } := by
    by_cases hnp : sub.status = .PENDING
    · simp [flagSubmission, hfs, hnp] at hok
      rw [hnp]
      exact hok.symm
    · by_cases hnu : sub.status = .UNDER_REVIEW
      · simp [flagSubmission, hfs, hnp, hnu] at hok
        rw [hnu]
        exact hok.symm
      · simp [flagSubmission, hfs, hnp, hnu] at hok
  subst hsub
  refine ⟨rfl, rfl, rfl, rfl, rfl, ?_, ?_, ?_⟩ <;>
  · simp only [updateSubmissionById]
    rw [List.map_map]
    apply List.map_congr_left
    intro x _
    by_cases hx : x.id = sid <;> simp [hx]

/-- Witness for C10 at the concrete pending store (`flagStore0` is the
computed result of the flag). -/
theorem c10_witness :
    flagStore0.users = store0.users ∧
    flagStore0.webhookEvents = store0.webhookEvents ∧
    flagStore0.submissions.map Submission.rejectionReason =
      store0.submissions.map Submission.rejectionReason := by
  have h := c10_flag_frame store0 0 1 "spam content" 5 sub0 flagStore0 rfl rfl
  exact ⟨h.1, h.2.1, h.2.2.2.2.2.2.2⟩

-- =============================================================================
-- Claim C2 — duplicate-pending guard
-- =============================================================================

/-- Claim C2 counterexample: `store0` already holds a PENDING submission
of user 0 for task "task-1", yet the upload-confirm operation — the one
that persists submission rows — succeeds for the same (user, task) pair
and creates a second PENDING row instead of failing with Conflict. -/
theorem c2_counterexample :
    pairPendingCount store0.submissions 0 "task-1" = 1 ∧
    (confirmUpload store0 "W0000000000000000000000000000001" "task-1" "k2.png" none 1 5).toOption.map
      (fun p => pairPendingCount p.1.submissions 0 "task-1") = some 2 := by
  refine ⟨rfl, rfl⟩

/-- Claim C2 (amended): the duplicate-pending Conflict guard exists only
on the upload-request operation: with a submission of the same (user,
task) pair in PENDING or UNDER_REVIEW present, `/upload/request` fails
with Conflict and leaves the store unchanged, but `/upload/confirm` — the
operation that actually persists the row — performs no duplicate check
and succeeds, appending a second PENDING submission row for the pair and
raising the pair's pending count by one. -/
theorem c2_duplicate_guard_only_on_request (cfg : Config) (s : Store)
    (wallet taskId filename contentType : String) (fileSize newUserId : Nat)
    (user : PlatformUser) (task : Task) (dup : Submission)
    (hmime : cfg.allowedMimeTypes.contains contentType = true)
    (hsize : fileSize ≤ cfg.maxFileSizeMb * 1024 * 1024)
    (htask : s.tasks.find? (fun t => t.id == taskId) = some task)
    (hact : task.isActive = true)
    (huser : s.users.find? (fun u => u.walletAddress == wallet) = some user)
    (hsusp : user.isSuspended = false)
    (hdup : s.submissions.find? (fun x => x.userId == user.id && x.taskId == taskId &&
      (x.status == .PENDING || x.status == .UNDER_REVIEW)) = some dup) :
    requestUpload cfg s wallet taskId filename contentType fileSize newUserId =
      (s, .error (Errors.conflict "You already have a pending submission for this task")) ∧
    (∀ uploadKey : String, ∀ userNote : Option String, ∀ newId now : Nat,
      confirmUpload s wallet taskId uploadKey userNote newId now =
        .ok ({ s with
                submissions := s.submissions ++
                  [newSubmissionRow wallet taskId uploadKey userNote user.id newId now]
                users := updateUserById s.users user.id
                  (fun u => { u with totalPending := u.totalPending + 1 }) },
             newSubmissionRow wallet taskId uploadKey userNote user.id newId now) ∧
      (newSubmissionRow wallet taskId uploadKey userNote user.id newId now).status = .PENDING ∧
      pairPendingCount (s.submissions ++
          [newSubmissionRow wallet taskId uploadKey userNote user.id newId now]) user.id taskId =
        pairPendingCount s.submissions user.id taskId + 1) := by
  have hsize' : ¬ fileSize > cfg.maxFileSizeMb * 1024 * 1024 := not_lt.mpr hsize
  have hmem : contentType ∈ cfg.allowedMimeTypes := by simpa using hmime
  constructor
  · simp [requestUpload, hmime, hmem, hsize', htask, hact, huser, hsusp, hdup]
  · intro uploadKey userNote newId now
    refine ⟨?_, rfl, ?_⟩
    · simp [confirmUpload, huser, hsusp, htask, hact]
    · simp [pairPendingCount, List.countP_append, newSubmissionRow, List.countP_cons]

/-- Witness for C2's amended theorem at the concrete duplicate store. -/
theorem c2_witness :
    requestUpload cfg0 store0 "W0000000000000000000000000000001" "task-1" "a.png" "image/png" 100 7 =
      (store0, .error (Errors.conflict "You already have a pending submission for this task")) ∧
    pairPendingCount (store0.submissions ++
        [newSubmissionRow "W0000000000000000000000000000001" "task-1" "k2.png" none 0 1 5]) 0 "task-1" =
      pairPendingCount store0.submissions 0 "task-1" + 1 := by
  have h := c2_duplicate_guard_only_on_request cfg0 store0
    "W0000000000000000000000000000001" "task-1" "a.png" "image/png" 100 7 user0 task0 sub0
    (by decide) (by decide) rfl rfl rfl rfl rfl
  exact ⟨h.1, (h.2 "k2.png" none 1 5).2.2⟩

-- =============================================================================
-- Claim C3 — the totalPending counter invariant
-- =============================================================================

/-- Rewriting rows whose id never matches is the identity. -/
theorem updateSubmissionById_no_match (l : List Submission) (sid : Nat)
    (f : Submission → Submission)
    (h : ∀ x ∈ l, (x.id == sid) = false) : updateSubmissionById l sid f = l := by
  induction l with
  | nil => rfl
  | cons x t ih =>
    have hx := h x (by simp)
    have ht : ∀ y ∈ t, (y.id == sid) = false := fun y hy => h y (by simp [hy])
    simp only [updateSubmissionById, List.map_cons] at ih ⊢
    rw [hx]
    simp only [Bool.false_eq_true, if_false]
    rw [ih ht]

/-- How a per-id row update changes a row count: with distinct ids, only
the targeted row's contribution to `countP` can change. -/
theorem countP_updateSubmissionById (l : List Submission) (sid : Nat)
    (f : Submission → Submission) (p : Submission → Bool) (sub : Submission)
    (hnd : (l.map Submission.id).Nodup)
    (hmem : sub ∈ l) (hid : sub.id = sid) :
    (updateSubmissionById l sid f).countP p + (if p sub then 1 else 0)
      = l.countP p + (if p (f sub) then 1 else 0) := by
  induction l with
  | nil => cases hmem
  | cons x t ih =>
    rw [List.map_cons, List.nodup_cons] at hnd
    obtain ⟨hx_not, hnd_t⟩ := hnd
    rcases List.mem_cons.mp hmem with rfl | hmem_t
    · have hxid : (sub.id == sid) = true := by simp [hid]
      have ht : ∀ y ∈ t, (y.id == sid) = false := by
        intro y hy
        rcases hb : (y.id == sid) with _ | _
        · rfl
        · exfalso
          apply hx_not
          have hyid : y.id = sid := by simpa using hb
          rw [hid, ← hyid]
          exact List.mem_map_of_mem Submission.id hy
      simp only [updateSubmissionById, List.map_cons, hxid, if_true]
      have hrest : t.map (fun y => if y.id == sid then f y else y) = t := by
        have := updateSubmissionById_no_match t sid f ht
        simpa [updateSubmissionById] using this
      rw [hrest]
      simp only [List.countP_cons]
      omega
    · have hxid : (x.id == sid) = false := by
        rcases hb : (x.id == sid) with _ | _
        · rfl
        · exfalso
          apply hx_not
          have : x.id = sid := by simpa using hb
          rw [this, ← hid]
          exact List.mem_map_of_mem Submission.id hmem_t
      simp only [updateSubmissionById, List.map_cons, hxid, Bool.false_eq_true, if_false]
      simp only [List.countP_cons]
      have := ih hnd_t hmem_t
      simp only [updateSubmissionById] at this
      omega

/-- Invariant transfer when a pending-like row leaves the pending-like set
and the owner's `totalPending` is decremented (approve and reject). -/
theorem pending_invariant_decrement
    (subs : List Submission) (users : List PlatformUser)
    (sid : Nat) (f : Submission → Submission) (g : PlatformUser → PlatformUser)
    (sub : Submission)
    (hnd : (subs.map Submission.id).Nodup)
    (hinv : ∀ u ∈ users, u.totalPending = (pendingCount subs u.id : Int))
    (hmem : sub ∈ subs) (hid : sub.id = sid)
    (hfuid : (f sub).userId = sub.userId)
    (hfpend : pendingLike (f sub).status = false)
    (hpend : pendingLike sub.status = true)
    (hgid : ∀ u, (g u).id = u.id)
    (hgtp : ∀ u, (g u).totalPending = u.totalPending - 1) :
    ∀ u' ∈ updateUserById users sub.userId g,
      u'.totalPending = (pendingCount (updateSubmissionById subs sid f) u'.id : Int) := by
  intro u' hu'
  simp only [updateUserById, List.mem_map] at hu'
  obtain ⟨u, hu, rfl⟩ := hu'
  have hinvu := hinv u hu
  have hcount := countP_updateSubmissionById subs sid f
    (fun x => x.userId == u.id && pendingLike x.status) sub hnd hmem hid
  simp only [pendingCount] at hinvu ⊢
  by_cases hidu : u.id = sub.userId
  · have h3 : (sub.userId == u.id && pendingLike sub.status) = true := by
      simp [hidu, hpend]
    have h2 : ((f sub).userId == u.id && pendingLike (f sub).status) = false := by
      simp [hfpend]
    have hif : (u.id == sub.userId) = true := by simp [hidu]
    simp only [h3, h2] at hcount
    simp at hcount
    simp only [hif, if_true, hgtp, hgid]
    omega
  · have h3 : (sub.userId == u.id && pendingLike sub.status) = false := by
      simp only [Bool.and_eq_false_iff]
      left
      simp only [beq_eq_false_iff_ne, ne_eq]
      exact fun h => hidu h.symm
    have h2 : ((f sub).userId == u.id && pendingLike (f sub).status) = false := by
      simp only [Bool.and_eq_false_iff]
      left
      rw [hfuid]
      simp only [beq_eq_false_iff_ne, ne_eq]
      exact fun h => hidu h.symm
    have hif : (u.id == sub.userId) = false := by simp [hidu]
    simp only [h3, h2] at hcount
    simp at hcount
    simp only [hif, Bool.false_eq_true, if_false]
    omega

/-- Invariant transfer when a row update does not change whether the row
is pending-like and the users table is untouched (flag, claim, confirm
payment). -/
theorem pending_invariant_same
    (subs : List Submission) (users : List PlatformUser)
    (sid : Nat) (f : Submission → Submission) (sub : Submission)
    (hnd : (subs.map Submission.id).Nodup)
    (hinv : ∀ u ∈ users, u.totalPending = (pendingCount subs u.id : Int))
    (hmem : sub ∈ subs) (hid : sub.id = sid)
    (hfuid : (f sub).userId = sub.userId)
    (hsame : pendingLike (f sub).status = pendingLike sub.status) :
    ∀ u' ∈ users,
      u'.totalPending = (pendingCount (updateSubmissionById subs sid f) u'.id : Int) := by
  intro u' hu'
  have hinvu := hinv u' hu'
  have hcount := countP_updateSubmissionById subs sid f
    (fun x => x.userId == u'.id && pendingLike x.status) sub hnd hmem hid
  have heq : ((f sub).userId == u'.id && pendingLike (f sub).status)
      = (sub.userId == u'.id && pendingLike sub.status) := by
    rw [hfuid, hsame]
  simp only [heq] at hcount
  simp only [pendingCount] at hinvu ⊢
  omega

/-- Invariant transfer when a pending-like row is appended and the owner's
`totalPending` is incremented (submission creation). -/
theorem pending_invariant_append
    (subs : List Submission) (users : List PlatformUser)
    (row : Submission) (uid : Nat)
    (hinv : ∀ u ∈ users, u.totalPending = (pendingCount subs u.id : Int))
    (hrowuid : row.userId = uid)
    (hrowpend : pendingLike row.status = true) :
    ∀ u' ∈ updateUserById users uid (fun u => { u with totalPending := u.totalPending + 1 }),
      u'.totalPending = (pendingCount (subs ++ [row]) u'.id : Int) := by
  intro u' hu'
  simp only [updateUserById, List.mem_map] at hu'
  obtain ⟨u, hu, rfl⟩ := hu'
  have hinvu := hinv u hu
  by_cases hidu : u.id = uid
  · have hif : (u.id == uid) = true := by simp [hidu]
    have hrow : (row.userId == u.id && pendingLike row.status) = true := by
      simp [hrowuid, hidu, hrowpend]
    simp only [pendingCount] at hinvu ⊢
    simp only [hif, if_true, List.countP_append, List.countP_cons, List.countP_nil, hrow]
    simp
    omega
  · have hif : (u.id == uid) = false := by simp [hidu]
    have hrow : (row.userId == u.id && pendingLike row.status) = false := by
      simp only [Bool.and_eq_false_iff]
      left
      rw [hrowuid]
      simp only [beq_eq_false_iff_ne, ne_eq]
      exact fun h => hidu h.symm
    simp only [pendingCount] at hinvu ⊢
    simp only [hif, Bool.false_eq_true, if_false, List.countP_append, List.countP_cons,
      List.countP_nil, hrow]
    simp
    omega

/-- Invariant transfer when a user row with zero `totalPending` and no
submissions is appended (find-or-create in the request handler). -/
theorem pending_invariant_new_user
    (subs : List Submission) (users : List PlatformUser) (nu : PlatformUser)
    (hinv : ∀ u ∈ users, u.totalPending = (pendingCount subs u.id : Int))
    (hnutp : nu.totalPending = 0)
    (hfresh : ∀ x ∈ subs, x.userId ≠ nu.id) :
    ∀ u' ∈ users ++ [nu], u'.totalPending = (pendingCount subs u'.id : Int) := by
  intro u' hu'
  rcases List.mem_append.mp hu' with h | h
  · exact hinv u' h
  · have : u' = nu := by simpa using h
    subst this
    have hzero : pendingCount subs u'.id = 0 := by
      simp only [pendingCount]
      rw [List.countP_eq_zero]
      intro x hx
      simp only [Bool.and_eq_true, beq_iff_eq, not_and]
      intro hx2
      exact absurd hx2 (hfresh x hx)
    rw [hzero, hnutp]
    rfl

/-- Claim C3 counterexample: in `store0` the specification's counter claim
holds (totalPending = 1 = one PENDING submission), the flag transaction
completes, and afterwards the claim fails: totalPending is still 1 while
the user has no submission in PENDING or UNDER_REVIEW — `flagSubmission`
never touches the counters. -/
theorem c3_counterexample :
    specCountersOk store0 = true ∧
    (flagSubmission store0 0 1 "spam content" 5).toOption.map specCountersOk = some false := by
  refine ⟨rfl, rfl⟩

/-- Claim C3 (amended): the counter the code maintains counts the
pending-like statuses PENDING, UNDER_REVIEW and FLAGGED, not just PENDING
and UNDER_REVIEW: provided the submission ids are distinct, every
completed operation — approve, reject, flag, reward claim, payment
confirmation, upload-confirm creation (and the upload-request handler,
whose created user owns no submission row), and the audit-only detail
view — preserves the invariant that each user's `totalPending` equals the
number of that user's submissions in {PENDING, UNDER_REVIEW, FLAGGED}. -/
theorem c3_counter_invariant (cfg : Config) (s : Store)
    (hnd : (s.submissions.map Submission.id).Nodup)
    (hinv : countersInvariant s) :
    (∀ sid aid : Nat, ∀ note tx : Option String, ∀ now : Nat, ∀ s' : Store,
      approveSubmission cfg s sid aid note tx now = .ok s' → countersInvariant s') ∧
    (∀ sid aid : Nat, ∀ reason : String, ∀ mnote : Option String, ∀ now : Nat, ∀ s' : Store,
      rejectSubmission cfg s sid aid reason mnote now = .ok s' → countersInvariant s') ∧
    (∀ sid aid : Nat, ∀ reason : String, ∀ now : Nat, ∀ s' : Store,
      flagSubmission s sid aid reason now = .ok s' → countersInvariant s') ∧
    (∀ wallet : String, ∀ sid : Nat, ∀ s' : Store,
      claimReward s wallet sid = .ok s' → countersInvariant s') ∧
    (∀ sid : Nat, ∀ tx : String, ∀ now : Nat, ∀ s' : Store,
      confirmRewardRoute s sid tx now = .ok s' → countersInvariant s') ∧
    (∀ wallet taskId uploadKey : String, ∀ userNote : Option String, ∀ newId now : Nat,
      ∀ p : Store × Submission,
      confirmUpload s wallet taskId uploadKey userNote newId now = .ok p →
        countersInvariant p.1) ∧
    (∀ wallet taskId filename contentType : String, ∀ fileSize newUserId : Nat,
      ∀ r : Store × Except AppError Unit,
      requestUpload cfg s wallet taskId filename contentType fileSize newUserId = r →
      (∀ x ∈ s.submissions, x.userId ≠ newUserId) →
        countersInvariant r.1) ∧
    (∀ sid aid now : Nat, ∀ p : Store × Submission,
      getSubmissionDetail s sid aid now = .ok p → countersInvariant p.1) := by
  refine ⟨?_, ?_, ?_, ?_, ?_, ?_, ?_, ?_⟩
  · -- approve
    intro sid aid note tx now s' hok
    cases hfs : s.submissions.find? (fun x => x.id == sid) with
    | none => simp [approveSubmission, hfs] at hok
    | some sub =>
    cases hfu : s.users.find? (fun u => u.id == sub.userId) with
    | none => simp [approveSubmission, hfs, hfu] at hok
    | some user =>
    cases hft : s.tasks.find? (fun t => t.id == sub.taskId) with
    | none => simp [approveSubmission, hfs, hfu, hft] at hok
    | some task =>
    by_cases hrev : reviewableStatus sub.status = true
    · simp [approveSubmission, hfs, hfu, hft, hrev, emitWebhook] at hok
      subst hok
      exact pending_invariant_decrement s.submissions s.users sid _ _ sub hnd hinv
        (List.mem_of_find?_eq_some hfs) (by simpa using List.find?_some hfs)
        rfl rfl hrev (fun u => rfl) (fun u => rfl)
    · simp [approveSubmission, hfs, hfu, hft, hrev] at hok
  · -- reject
    intro sid aid reason mnote now s' hok
    by_cases hrl : ((trimStr reason).length == 0) = true
    · simp [rejectSubmission, hrl] at hok
    · cases hfs : s.submissions.find? (fun x => x.id == sid) with
      | none => simp [rejectSubmission, hrl, hfs] at hok
      | some sub =>
      cases hfu : s.users.find? (fun u => u.id == sub.userId) with
      | none => simp [rejectSubmission, hrl, hfs, hfu] at hok
      | some user =>
      by_cases hrev : reviewableStatus sub.status = true
      · simp [rejectSubmission, hrl, hfs, hfu, hrev, emitWebhook] at hok
        subst hok
        exact pending_invariant_decrement s.submissions s.users sid _ _ sub hnd hinv
          (List.mem_of_find?_eq_some hfs) (by simpa using List.find?_some hfs)
          rfl rfl hrev (fun u => rfl) (fun u => rfl)
      · simp [rejectSubmission, hrl, hfs, hfu, hrev] at hok
  · -- flag
    intro sid aid reason now s' hok
    cases hfs : s.submissions.find? (fun x => x.id == sid) with
    | none => simp [flagSubmission, hfs] at hok
    | some sub =>
    by_cases hnp : sub.status = .PENDING
    · simp [flagSubmission, hfs, hnp] at hok
      subst hok
      exact pending_invariant_same s.submissions s.users sid _ sub hnd hinv
        (List.mem_of_find?_eq_some hfs) (by simpa using List.find?_some hfs)
        rfl (by rw [hnp]; rfl)

    · by_cases hnu : sub.status = .UNDER_REVIEW
      · simp [flagSubmission, hfs, hnp, hnu] at hok
        subst hok
        exact pending_invariant_same s.submissions s.users sid _ sub hnd hinv
          (List.mem_of_find?_eq_some hfs) (by simpa using List.find?_some hfs)
          rfl (by rw [hnu]; rfl)
      · simp [flagSubmission, hfs, hnp, hnu] at hok
  · -- reward claim
    intro wallet sid s' hok
    cases hfs : s.submissions.find? (fun x => x.id == sid &&
        ((s.users.find? (fun u => u.id == x.userId)).map PlatformUser.walletAddress)
          == some wallet) with
    | none => simp [claimReward, hfs] at hok
    | some sub =>
    by_cases hft : (s.tasks.find? (fun t => t.id == sub.taskId)).isNone
    · simp [claimReward, hfs, hft] at hok
    · by_cases hap : sub.status = .APPROVED
      · simp [claimReward, hfs, hft, hap] at hok
        subst hok
        have hpred := List.find?_some hfs
        have hsubid : sub.id = sid := by
          have := (Bool.and_eq_true _ _).mp hpred
          simpa using this.1
        exact pending_invariant_same s.submissions s.users sid _ sub hnd hinv
          (List.mem_of_find?_eq_some hfs) hsubid rfl (by rw [hap]; rfl)
      · simp [claimReward, hfs, hft, hap] at hok
  · -- payment confirmation
    intro sid tx now s' hok
    by_cases hlen : tx.length < 64
    · simp [confirmRewardRoute, hlen] at hok
    · cases hfs : s.submissions.find? (fun x => x.id == sid) with
      | none => simp [confirmRewardRoute, hlen, hfs] at hok
      | some sub =>
      by_cases hrp : sub.status = .REWARD_PENDING
      · simp [confirmRewardRoute, hlen, hfs, hrp] at hok
        subst hok
        exact pending_invariant_same s.submissions s.users sid _ sub hnd hinv
          (List.mem_of_find?_eq_some hfs) (by simpa using List.find?_some hfs)
          rfl (by rw [hrp]; rfl)
      · simp [confirmRewardRoute, hlen, hfs, hrp] at hok
  · -- upload confirm (creation)
    intro wallet taskId uploadKey userNote newId now p hok
    cases hfu : s.users.find? (fun u => u.walletAddress == wallet) with
    | none => simp [confirmUpload, hfu] at hok
    | some user =>
    by_cases hsusp : user.isSuspended = true
    · simp [confirmUpload, hfu, hsusp] at hok
    · cases hft : s.tasks.find? (fun t => t.id == taskId) with
      | none => simp [confirmUpload, hfu, hsusp, hft] at hok
      | some task =>
      by_cases hact : task.isActive = true
      · simp [confirmUpload, hfu, hsusp, hft, hact] at hok
        subst hok
        exact pending_invariant_append s.submissions s.users
          (newSubmissionRow wallet taskId uploadKey userNote user.id newId now)
          user.id hinv rfl rfl
      · simp [confirmUpload, hfu, hsusp, hft, hact] at hok
  · -- upload request (find-or-create user only)
    intro wallet taskId filename contentType fileSize newUserId r heq hfresh
    have hcases : r.1 = s ∨
        r.1 = { s with users := s.users ++ [newPlatformUser newUserId wallet] } := by
      rw [← heq]
      unfold requestUpload
      cases h1 : cfg.allowedMimeTypes.contains contentType with
      | false => simp [h1]
      | true =>
        simp only [h1, Bool.not_true, Bool.false_eq_true, if_false]
        by_cases h2 : fileSize > cfg.maxFileSizeMb * 1024 * 1024
        · simp [h2]
        · rw [if_neg h2]
          cases hft : s.tasks.find? (fun t => t.id == taskId) with
          | none => simp
          | some task =>
          cases h3 : task.isActive with
          | false => simp [h3]
          | true =>
            simp only [h3, Bool.not_true, Bool.false_eq_true, if_false]
            cases hfu : s.users.find? (fun u => u.walletAddress == wallet) with
            | none =>
              right
              simp only [hfu, Option.getD_none]
              split
              · rfl
              · split
                · rfl
                · rfl
            | some user =>
              left
              simp only [hfu, Option.getD_some]
              split
              · rfl
              · split
                · rfl
                · rfl
    rcases hcases with h | h
    · rw [h]; exact hinv
    · rw [h]
      exact pending_invariant_new_user s.submissions s.users
        (newPlatformUser newUserId wallet) hinv rfl hfresh
  · -- audit-only detail view
    intro sid aid now p hok
    cases hfs : s.submissions.find? (fun x => x.id == sid) with
    | none => simp [getSubmissionDetail, hfs] at hok
    | some sub =>
    simp [getSubmissionDetail, hfs] at hok
    subst hok
    exact hinv

/-- Witness for C3's amended invariant: `store0` satisfies the hypotheses
and flagging its pending submission preserves the pending-like counter
invariant. -/
theorem c3_witness :
    (store0.submissions.map Submission.id).Nodup ∧ countersInvariant store0 ∧
    countersInvariant flagStore0 := by
  have h := c3_counter_invariant cfg0 store0 (by decide)
    (by unfold countersInvariant; decide)
  exact ⟨by decide, by unfold countersInvariant; decide,
    h.2.2.1 0 1 "spam content" 5 flagStore0 rfl⟩

end AdminDashboard
